import Mathlib

/-!
Shallow embedding of `src/app.py` (Anaemia Prediction Streamlit app).

The app collects form inputs (sex, three pixel percentages, hemoglobin,
optional location), optionally geocodes a free-text location, loads an
external classifier, calls `predict` (and `predict_proba` when the object
has it), derives a tip list and reference link from threshold rules, and
serializes a flat-text report.  Numeric form values are embedded as
rationals (`ℚ`); the classifier is an abstract record of its `predict`
and optional `predict_proba` operations.
-/

namespace AnaemiaApp

/-- The `Sex` selectbox value (`'M'` or `'F'`), app.py line 105. -/
inductive Sex where
  | M
  | F
deriving DecidableEq, Repr

/-- Rendering of the sex value as it appears in f-strings. -/
def sexStr : Sex → String
  | Sex.M => "M"
  | Sex.F => "F"

/-- The single-row record handed to the classifier: app.py lines 139-145,
columns `Sex` (encoded), `%Red Pixel`, `%Green pixel`, `%Blue pixel`, `Hb`. -/
structure InputData where
  sex_encoded : ℤ
  red_pixel : ℚ
  green_pixel : ℚ
  blue_pixel : ℚ
  hb : ℚ
deriving DecidableEq, Repr

/-- The loaded model object (app.py line 159): an opaque artifact exposing
`predict` (line 160, the `[0]` row extraction is folded into the codomain)
and, when the object has the attribute (line 162), `predict_proba`
(line 163) returning the probability row for the record. -/
structure Classifier where
  predict : InputData → ℤ
  predictProba : Option (InputData → List ℚ)

/-- Maximum of the probability row, modelling `np.max` (app.py line 164);
on an empty array `np.max` is an error, embedded here as the junk value `0`. -/
def npMax : List ℚ → ℚ
  | [] => 0
  | a :: l => l.foldl max a

/-- Tip string, app.py line 169. -/
def ironTip : String := "Increase iron-rich foods (spinach, beans, red meat)."

/-- Tip string, app.py line 171. -/
def hydrationTip : String := "Stay hydrated; high green pixel may indicate plasma presence."

/-- Tip string, app.py line 173. -/
def consultTip : String := "Consult your doctor for supplements if needed."

/-- Tip string, app.py line 174. -/
def checkupsTip : String := "Get regular checkups."

/-- Tip string, app.py line 177. -/
def balancedDietTip : String := "Maintain a balanced diet."

/-- Tip string, app.py line 178. -/
def exerciseTip : String := "Exercise regularly."

/-- Tip string, app.py line 179. -/
def sleepTip : String := "Get enough sleep."

/-- Tip string, app.py line 180. -/
def healthCheckupsTip : String := "Have regular health checkups."

/-- Reference link, app.py line 175. -/
def whoLink : String :=
  "[Learn more about anaemia (WHO)](https://www.who.int/news-room/fact-sheets/detail/anaemia)"

/-- Reference link, app.py line 181. -/
def mayoLink : String :=
  "[General health tips (Mayo Clinic)](https://www.mayoclinic.org/healthy-lifestyle)"

/-- The advisory-rule block, app.py lines 166-181: sequential appends to
`tips` guarded by `hb < 12`, `green_pixel > 40` and `prediction == 1`,
with `learn_more` set by the prediction branch. -/
def computeTips (hb green_pixel : ℚ) (prediction : ℤ) : List String × String :=
  let tips : List String := []
  let tips := if hb < 12 then tips ++ [ironTip] else tips
  let tips := if green_pixel > 40 then tips ++ [hydrationTip] else tips
  if prediction = 1 then
    (tips ++ [consultTip, checkupsTip], whoLink)
  else
    (tips ++ [balancedDietTip, exerciseTip, sleepTip, healthCheckupsTip], mayoLink)

/-- Smallest exponent `k` with `10 ^ k` divisible by `d` (searched up to 40),
used to render a rational with a finite decimal expansion. -/
def decExponent (d : ℕ) : Option ℕ :=
  (List.range 40).find? fun k => 10 ^ k % d = 0

/-- Render `fp` as `k` fractional digits, trailing zeros stripped but at
least one digit kept, as Python float repr does. -/
def fracStr (fp k : ℕ) : String :=
  let s := toString fp
  let padded := String.mk (List.replicate (k - s.length) '0') ++ s
  let cs := padded.toList.reverse.dropWhile fun c => c = '0'
  if cs.isEmpty then "0" else String.mk cs.reverse

/-- Rendering of a numeric form value inside an f-string (app.py lines
199-203).  The number inputs hold decimal values, for which Python float
repr prints the shortest decimal expansion with at least one fractional
digit; a rational with no finite decimal expansion (never produced by the
form) falls back to a fraction rendering. -/
def floatRepr (q : ℚ) : String :=
  let sign := if q < 0 then "-" else ""
  match decExponent q.den with
  | some k =>
      let scaled := q.num.natAbs * 10 ^ k / q.den
      sign ++ toString (scaled / 10 ^ k) ++ "." ++ fracStr (scaled % 10 ^ k) k
  | none => sign ++ toString q.num.natAbs ++ "/" ++ toString q.den

/-- Round to the nearest integer, ties to even: the rounding Python
one-decimal formatting applies, taken on the exact value.  The floor is
computed with `Int.fdiv` on the numerator and denominator so that the
function stays kernel-reducible. -/
def roundHalfEven (q : ℚ) : ℤ :=
  let f : ℤ := Int.fdiv q.num q.den
  let r : ℤ := q.num - f * q.den
  if 2 * r < q.den then f
  else if 2 * r > q.den then f + 1
  else if f % 2 = 0 then f else f + 1

/-- Python one-decimal float formatting (app.py lines 186, 191, 206). -/
def fmt1f (q : ℚ) : String :=
  let n := roundHalfEven (q * 10)
  if n < 0 then "-" ++ toString ((-n).toNat / 10) ++ "." ++ toString ((-n).toNat % 10)
  else toString (n.toNat / 10) ++ "." ++ toString (n.toNat % 10)

/-- The sequence of `report.write` payloads, app.py lines 196-210: one list
element per `write` call (the tip loop at lines 208-209 becomes a map). -/
def reportPieces (sex : Sex) (red_pixel green_pixel blue_pixel hb : ℚ)
    (prediction : ℤ) (confidence : Option ℚ) (tips : List String)
    (learn_more : String) : List String :=
  ["Anaemia Prediction Report\n",
   "========================\n",
   "Sex: " ++ sexStr sex ++ "\n",
   "%Red Pixel: " ++ floatRepr red_pixel ++ "\n",
   "%Green pixel: " ++ floatRepr green_pixel ++ "\n",
   "%Blue pixel: " ++ floatRepr blue_pixel ++ "\n",
   "Hemoglobin (Hb): " ++ floatRepr hb ++ "\n",
   "Prediction: " ++ (if prediction = 1 then "Anaemic" else "Not Anaemic") ++ "\n"]
  ++ (match confidence with
      | some c => ["Confidence: " ++ fmt1f (c * 100) ++ "%\n"]
      | none => [])
  ++ ["\nHealth Tips:\n"]
  ++ tips.map (fun tip => "- " ++ tip ++ "\n")
  ++ ["\n" ++ learn_more ++ "\n"]

/-- The value of `report.getvalue()`: concatenation of everything written. -/
def buildReport (sex : Sex) (red_pixel green_pixel blue_pixel hb : ℚ)
    (prediction : ℤ) (confidence : Option ℚ) (tips : List String)
    (learn_more : String) : String :=
  String.join (reportPieces sex red_pixel green_pixel blue_pixel hb
    prediction confidence tips learn_more)

/-- Everything the prediction block (app.py lines 157-211) produces from
the form inputs: the record given to the classifier, the raw prediction,
the optional confidence, the tips, the reference link and the report. -/
structure RunResult where
  input_data : InputData
  prediction : ℤ
  confidence : Option ℚ
  tips : List String
  learn_more : String
  report : String
deriving DecidableEq, Repr

/-- The prediction block, app.py lines 136-145 and 157-211: encode sex
(line 136), assemble `input_data` (lines 139-145), call `predict`
(line 160), derive confidence from `predict_proba` when present
(lines 161-164), compute tips (lines 166-181), build the report
(lines 196-210). -/
def runPrediction (clf : Classifier) (sex : Sex)
    (red_pixel green_pixel blue_pixel hb : ℚ) : RunResult :=
  let sex_encoded : ℤ := if sex = Sex.M then 0 else 1
  let input_data : InputData :=
    ⟨sex_encoded, red_pixel, green_pixel, blue_pixel, hb⟩
  let prediction := clf.predict input_data
  let confidence : Option ℚ :=
    match clf.predictProba with
    | some f => some (npMax (f input_data))
    | none => none
  let tl := computeTips hb green_pixel prediction
  ⟨input_data, prediction, confidence, tl.1, tl.2,
    buildReport sex red_pixel green_pixel blue_pixel hb prediction
      confidence tl.1 tl.2⟩

/-- The location-entry radio button, app.py line 116. -/
inductive LocationMode where
  | countryCity
  | latLon
deriving DecidableEq, Repr

/-- Outcome of one `geolocator.geocode` call (app.py line 124): a located
place, an empty result, or a raised exception with its message. -/
inductive GeoOutcome where
  | found (lat lon : ℚ)
  | notFound
  | geoError (msg : String)

/-- State after the location section, app.py lines 117-133: the
coordinates (both start as `None`, line 117), the warnings shown
(lines 128, 130), and whether `geolocator.geocode` was invoked. -/
structure LocationState where
  latitude : Option ℚ
  longitude : Option ℚ
  warnings : List String
  geocoderCalled : Bool
deriving DecidableEq, Repr

/-- The location section, app.py lines 116-133.  In `Country/City` mode an
empty text field skips geocoding (`if location_text:` line 121); otherwise
the geocoder result sets the coordinates or produces a warning.  In
`Latitude/Longitude` mode the two number inputs are taken directly. -/
def resolveLocation (location_mode : LocationMode) (location_text : String)
    (geocode : String → GeoOutcome) (latInput lonInput : ℚ) : LocationState :=
  match location_mode with
  | LocationMode.countryCity =>
      if location_text = "" then ⟨none, none, [], false⟩
      else
        match geocode location_text with
        | GeoOutcome.found lat lon => ⟨some lat, some lon, [], true⟩
        | GeoOutcome.notFound =>
            ⟨none, none, ["Could not find the location. Please check your input."], true⟩
        | GeoOutcome.geoError msg =>
            ⟨none, none, ["Geocoding error: " ++ msg], true⟩
  | LocationMode.latLon => ⟨some latInput, some lonInput, [], false⟩

/-- One full submission with the predict button pressed: the location
section runs (app.py lines 116-133), then the prediction block
(lines 157-211).  The prediction block reads none of the location
variables, which the embedding makes literal. -/
structure AppRun where
  loc : LocationState
  result : RunResult

/-- The whole script on one submission. -/
def runApp (clf : Classifier) (sex : Sex)
    (red_pixel green_pixel blue_pixel hb : ℚ)
    (location_mode : LocationMode) (location_text : String)
    (geocode : String → GeoOutcome) (latInput lonInput : ℚ) : AppRun :=
  ⟨resolveLocation location_mode location_text geocode latInput lonInput,
   runPrediction clf sex red_pixel green_pixel blue_pixel hb⟩

/-- String `s` contains `line` as a whole line: it occurs followed by a newline,
at the start of `s` or right after a newline. -/
def containsLine (s line : String) : Prop :=
  ∃ a b : String, s = a ++ (line ++ "\n") ++ b ∧ (a = "" ∨ ∃ a0 : String, a = a0 ++ "\n")

/-- Boolean substring test on character lists (structural, kernel-reducible). -/
def containsSub (pat : List Char) : List Char → Bool
  | [] => pat.isEmpty
  | c :: rest => pat.isPrefixOf (c :: rest) || containsSub pat rest

/-- A classifier that always predicts 1 and has no probability method. -/
def clfOne : Classifier := ⟨fun _ => 1, none⟩

/-- A classifier that always predicts 0 and has no probability method. -/
def clfZero : Classifier := ⟨fun _ => 0, none⟩

/-- The probability row `[0.18, 0.82]` used in concrete runs. -/
def probaRow : List ℚ := [9 / 50, 41 / 50]

/-- A classifier predicting 1 with probability row `[0.18, 0.82]`. -/
def clfProba : Classifier := ⟨fun _ => 1, some fun _ => probaRow⟩

theorem foldl_append_str (l : List String) (a b : String) :
    l.foldl (fun r s => r ++ s) (a ++ b) = a ++ l.foldl (fun r s => r ++ s) b := by
  induction l generalizing b with
  | nil => rfl
  | cons c t ih =>
      simp only [List.foldl]
      rw [String.append_assoc, ih]

theorem join_cons (s : String) (l : List String) :
    String.join (s :: l) = s ++ String.join l := by
  have h := foldl_append_str l s ""
  rw [String.append_empty] at h
  simpa [String.join, List.foldl, String.empty_append] using h

theorem join_append_str (l₁ l₂ : List String) :
    String.join (l₁ ++ l₂) = String.join l₁ ++ String.join l₂ := by
  induction l₁ with
  | nil => simp [String.join, String.empty_append, List.foldl]
  | cons s t ih =>
      rw [List.cons_append, join_cons, join_cons, ih, String.append_assoc]

theorem join_nl_or_empty (l : List String)
    (h : ∀ s ∈ l, ∃ s0, s = s0 ++ "\n") :
    String.join l = "" ∨ ∃ a0, String.join l = a0 ++ "\n" := by
  induction l with
  | nil => exact Or.inl rfl
  | cons s t ih =>
      right
      obtain ⟨s0, hs⟩ := h s (List.mem_cons_self s t)
      rcases ih (fun x hx => h x (List.mem_cons_of_mem s hx)) with h0 | ⟨a0, ha⟩
      · exact ⟨s0, by rw [join_cons, h0, String.append_empty, hs]⟩
      · exact ⟨s ++ a0, by rw [join_cons, ha, ← String.append_assoc]⟩

theorem containsLine_join (l₁ l₂ : List String) (x : String)
    (h : ∀ s ∈ l₁, ∃ s0, s = s0 ++ "\n") :
    containsLine (String.join (l₁ ++ (x ++ "\n") :: l₂)) x := by
  refine ⟨String.join l₁, String.join l₂, ?_, join_nl_or_empty l₁ h⟩
  rw [join_append_str, join_cons]
  simp [String.append_assoc]

/-- Closed form of `computeTips`: the two threshold tips in order, then the
label-dependent block, with the link picked by the label. -/
theorem computeTips_eq (hb g : ℚ) (p : ℤ) :
    computeTips hb g p =
      (((if hb < 12 then [ironTip] else []) ++ (if g > 40 then [hydrationTip] else [])) ++
        (if p = 1 then [consultTip, checkupsTip]
         else [balancedDietTip, exerciseTip, sleepTip, healthCheckupsTip]),
       if p = 1 then whoLink else mayoLink) := by
  unfold computeTips
  by_cases h1 : hb < 12 <;> by_cases h2 : g > 40 <;> by_cases h3 : p = 1 <;>
    simp [h1, h2, h3]

theorem ironTip_mem_computeTips (hb g : ℚ) (p : ℤ) :
    ironTip ∈ (computeTips hb g p).1 ↔ hb < 12 := by
  rw [computeTips_eq]
  by_cases h1 : hb < 12 <;> by_cases h2 : g > 40 <;> by_cases h3 : p = 1 <;>
    simp [h1, h2, h3] <;> decide

theorem hydrationTip_mem_computeTips (hb g : ℚ) (p : ℤ) :
    hydrationTip ∈ (computeTips hb g p).1 ↔ g > 40 := by
  rw [computeTips_eq]
  by_cases h1 : hb < 12 <;> by_cases h2 : g > 40 <;> by_cases h3 : p = 1 <;>
    simp [h1, h2, h3] <;> decide

/-- C1: when the prediction is 1 the link is the WHO page and the
label-dependent tips appended after the threshold tips are exactly the
doctor-consult and checkups tips; when the prediction is 0 the link is the
Mayo Clinic page and the appended tips are exactly the four wellness tips. -/
theorem label_branch_tips_and_link (clf : Classifier) (sex : Sex)
    (red_pixel green_pixel blue_pixel hb : ℚ) :
    ((runPrediction clf sex red_pixel green_pixel blue_pixel hb).prediction = 1 →
      (runPrediction clf sex red_pixel green_pixel blue_pixel hb).learn_more = whoLink ∧
      (runPrediction clf sex red_pixel green_pixel blue_pixel hb).tips =
        ((if hb < 12 then [ironTip] else []) ++
          (if green_pixel > 40 then [hydrationTip] else [])) ++
          [consultTip, checkupsTip]) ∧
    ((runPrediction clf sex red_pixel green_pixel blue_pixel hb).prediction = 0 →
      (runPrediction clf sex red_pixel green_pixel blue_pixel hb).learn_more = mayoLink ∧
      (runPrediction clf sex red_pixel green_pixel blue_pixel hb).tips =
        ((if hb < 12 then [ironTip] else []) ++
          (if green_pixel > 40 then [hydrationTip] else [])) ++
          [balancedDietTip, exerciseTip, sleepTip, healthCheckupsTip]) := by
  simp only [runPrediction, computeTips_eq]
  constructor
  · intro hp
    simp [hp]
  · intro hp
    have : ¬((0 : ℤ) = 1) := by decide
    simp [hp, this]

/-- Witness for C1 at concrete inputs: an always-1 classifier yields the WHO
link and the doctor/checkups block; an always-0 classifier yields the Mayo
link and the four wellness tips. -/
theorem label_branch_tips_and_link_witness :
    (runPrediction clfOne Sex.M 45 45 25 10).learn_more = whoLink ∧
    (runPrediction clfOne Sex.M 45 45 25 10).tips =
      [ironTip, hydrationTip, consultTip, checkupsTip] ∧
    (runPrediction clfZero Sex.F 45 30 25 13).learn_more = mayoLink ∧
    (runPrediction clfZero Sex.F 45 30 25 13).tips =
      [balancedDietTip, exerciseTip, sleepTip, healthCheckupsTip] := by
  have h1 := (label_branch_tips_and_link clfOne Sex.M 45 45 25 10).1 rfl
  have h0 := (label_branch_tips_and_link clfZero Sex.F 45 30 25 13).2 rfl
  refine ⟨h1.1, ?_, h0.1, ?_⟩
  · rw [h1.2]
    decide
  · rw [h0.2]
    decide

/-- C2: the iron-rich-foods tip is in the tip list exactly when the
hemoglobin input is below 12. -/
theorem iron_tip_iff_low_hb (clf : Classifier) (sex : Sex)
    (red_pixel green_pixel blue_pixel hb : ℚ) :
    ironTip ∈ (runPrediction clf sex red_pixel green_pixel blue_pixel hb).tips ↔
      hb < 12 := by
  simp only [runPrediction]
  exact ironTip_mem_computeTips hb green_pixel _

/-- C3: the hydration/plasma tip is in the tip list exactly when the green
pixel percentage exceeds 40. -/
theorem hydration_tip_iff_high_green (clf : Classifier) (sex : Sex)
    (red_pixel green_pixel blue_pixel hb : ℚ) :
    hydrationTip ∈ (runPrediction clf sex red_pixel green_pixel blue_pixel hb).tips ↔
      green_pixel > 40 := by
  simp only [runPrediction]
  exact hydrationTip_mem_computeTips hb green_pixel _

theorem init_le_foldl_max (l : List ℚ) (a : ℚ) : a ≤ l.foldl max a := by
  induction l generalizing a with
  | nil => exact le_refl a
  | cons b t ih => exact le_trans (le_max_left a b) (ih (max a b))

theorem mem_le_foldl_max (l : List ℚ) (a : ℚ) : ∀ p ∈ l, p ≤ l.foldl max a := by
  induction l generalizing a with
  | nil => intro p hp; cases hp
  | cons b t ih =>
      intro p hp
      rcases List.mem_cons.mp hp with rfl | hp'
      · exact le_trans (le_max_right a p) (init_le_foldl_max t (max a p))
      · exact ih (max a b) p hp'

theorem foldl_max_mem (l : List ℚ) (a : ℚ) :
    l.foldl max a = a ∨ l.foldl max a ∈ l := by
  induction l generalizing a with
  | nil => exact Or.inl rfl
  | cons b t ih =>
      rcases ih (max a b) with h | h
      · rcases max_choice a b with hm | hm
        · exact Or.inl (by rw [List.foldl, h, hm])
        · exact Or.inr (by rw [List.foldl, h, hm]; exact List.mem_cons_self b t)
      · exact Or.inr (List.mem_cons_of_mem b h)

/-- Every entry of the probability row is at most `npMax` of it. -/
theorem le_npMax (l : List ℚ) : ∀ p ∈ l, p ≤ npMax l := by
  cases l with
  | nil => intro p hp; cases hp
  | cons a t =>
      intro p hp
      rcases List.mem_cons.mp hp with rfl | hp'
      · exact init_le_foldl_max t p
      · exact mem_le_foldl_max t a p hp'

/-- On a nonempty row, `npMax` is one of its entries. -/
theorem npMax_mem (l : List ℚ) (h : l ≠ []) : npMax l ∈ l := by
  cases l with
  | nil => exact absurd rfl h
  | cons a t =>
      rcases foldl_max_mem t a with h' | h'
      · rw [npMax, h']; exact List.mem_cons_self a t
      · exact List.mem_cons_of_mem a h'

theorem npMax_probaRow : npMax probaRow = 41 / 50 := by
  have h : (9 : ℚ) / 50 ≤ 41 / 50 := by norm_num
  simp [npMax, probaRow, List.foldl, max_eq_right h]

set_option maxRecDepth 100000 in
/-- C5: when the classifier exposes `predict_proba`, the confidence is the
maximum of the returned probability row (an upper bound attained by a row
entry); when it does not, the confidence is `none`, and at a concrete run
the report contains no `Confidence` text at all. -/
theorem confidence_from_predict_proba (clf : Classifier) (sex : Sex)
    (red_pixel green_pixel blue_pixel hb : ℚ) :
    (∀ f, clf.predictProba = some f →
      (runPrediction clf sex red_pixel green_pixel blue_pixel hb).confidence =
        some (npMax (f (runPrediction clf sex red_pixel green_pixel blue_pixel hb).input_data)) ∧
      (∀ p ∈ f (runPrediction clf sex red_pixel green_pixel blue_pixel hb).input_data,
        p ≤ npMax (f (runPrediction clf sex red_pixel green_pixel blue_pixel hb).input_data)) ∧
      (f (runPrediction clf sex red_pixel green_pixel blue_pixel hb).input_data ≠ [] →
        npMax (f (runPrediction clf sex red_pixel green_pixel blue_pixel hb).input_data) ∈
          f (runPrediction clf sex red_pixel green_pixel blue_pixel hb).input_data)) ∧
    (clf.predictProba = none →
      (runPrediction clf sex red_pixel green_pixel blue_pixel hb).confidence = none) ∧
    (runPrediction clfZero Sex.F 45 30 25 10).confidence = none ∧
    containsSub "Confidence".toList
      (runPrediction clfZero Sex.F 45 30 25 10).report.toList = false := by
  refine ⟨?_, ?_, rfl, by decide⟩
  · intro f hf
    refine ⟨?_, le_npMax _, npMax_mem _⟩
    simp [runPrediction, hf]
  · intro hf
    simp [runPrediction, hf]

/-- Witness for C5: with the probability row `[0.18, 0.82]` the confidence
is `0.82`, and the entry `0.18` is bounded by it. -/
theorem confidence_from_predict_proba_witness :
    (runPrediction clfProba Sex.F 45 30 25 10).confidence = some (41 / 50) ∧
    ((9 : ℚ) / 50 ≤ 41 / 50) := by
  have h := (confidence_from_predict_proba clfProba Sex.F 45 30 25 10).1
    (fun _ => probaRow) rfl
  constructor
  · rw [h.1]
    simp [npMax_probaRow]
  · have hm : (9 : ℚ) / 50 ∈ probaRow := by simp [probaRow]
    have := h.2.1 (9 / 50) hm
    simpa [npMax_probaRow] using this

/-- C6: with a nonempty free-text location, a geocoder failure (empty
result or raised error) only adds the corresponding warning and leaves the
coordinates null, and the prediction result is produced unchanged. -/
theorem geocode_failure_nonfatal (clf : Classifier) (sex : Sex)
    (red_pixel green_pixel blue_pixel hb : ℚ) (location_text : String)
    (geocode : String → GeoOutcome) (latInput lonInput : ℚ)
    (htext : ¬location_text = "") :
    ((geocode location_text = GeoOutcome.notFound →
      (runApp clf sex red_pixel green_pixel blue_pixel hb LocationMode.countryCity
        location_text geocode latInput lonInput).loc =
        ⟨none, none, ["Could not find the location. Please check your input."], true⟩) ∧
    (∀ msg, geocode location_text = GeoOutcome.geoError msg →
      (runApp clf sex red_pixel green_pixel blue_pixel hb LocationMode.countryCity
        location_text geocode latInput lonInput).loc =
        ⟨none, none, ["Geocoding error: " ++ msg], true⟩) ∧
    (runApp clf sex red_pixel green_pixel blue_pixel hb LocationMode.countryCity
        location_text geocode latInput lonInput).result =
      runPrediction clf sex red_pixel green_pixel blue_pixel hb) := by
  refine ⟨?_, ?_, rfl⟩
  · intro h
    simp [runApp, resolveLocation, htext, h]
  · intro msg h
    simp [runApp, resolveLocation, htext, h]

/-- Witness for C6: an unresolvable text yields the warning and null
coordinates, and the result equals the plain prediction run. -/
theorem geocode_failure_nonfatal_witness :
    (runApp clfOne Sex.F 45 30 25 10 LocationMode.countryCity "Atlantis"
      (fun _ => GeoOutcome.notFound) 0 0).loc =
      ⟨none, none, ["Could not find the location. Please check your input."], true⟩ ∧
    (runApp clfOne Sex.F 45 30 25 10 LocationMode.countryCity "Atlantis"
      (fun _ => GeoOutcome.notFound) 0 0).result =
      runPrediction clfOne Sex.F 45 30 25 10 := by
  have h := geocode_failure_nonfatal clfOne Sex.F 45 30 25 10 "Atlantis"
    (fun _ => GeoOutcome.notFound) 0 0 (by decide)
  exact ⟨h.1 rfl, h.2.2⟩

/-- C7: the record handed to `predict` (and to `predict_proba`) is exactly
the 5-field row (encoded sex, red, green, blue, hemoglobin), with the sex
encoding in {0, 1}. -/
theorem classifier_record_schema (clf : Classifier) (sex : Sex)
    (red_pixel green_pixel blue_pixel hb : ℚ) :
    (runPrediction clf sex red_pixel green_pixel blue_pixel hb).input_data =
      ⟨if sex = Sex.M then 0 else 1, red_pixel, green_pixel, blue_pixel, hb⟩ ∧
    ((runPrediction clf sex red_pixel green_pixel blue_pixel hb).input_data.sex_encoded = 0 ∨
      (runPrediction clf sex red_pixel green_pixel blue_pixel hb).input_data.sex_encoded = 1) ∧
    (runPrediction clf sex red_pixel green_pixel blue_pixel hb).prediction =
      clf.predict (runPrediction clf sex red_pixel green_pixel blue_pixel hb).input_data ∧
    (∀ f, clf.predictProba = some f →
      (runPrediction clf sex red_pixel green_pixel blue_pixel hb).confidence =
        some (npMax (f (runPrediction clf sex red_pixel green_pixel blue_pixel hb).input_data))) := by
  refine ⟨rfl, ?_, rfl, ?_⟩
  · cases sex with
    | M => left; rfl
    | F => right; rfl
  · intro f hf
    simp [runPrediction, hf]

/-- Witness for C7: the concrete record for a female patient with the
default form values, with `predict_proba` consumed on the same record. -/
theorem classifier_record_schema_witness :
    (runPrediction clfProba Sex.F 45 30 25 10).input_data =
      ⟨1, 45, 30, 25, 10⟩ ∧
    (runPrediction clfProba Sex.F 45 30 25 10).confidence = some (npMax probaRow) := by
  have h := classifier_record_schema clfProba Sex.F 45 30 25 10
  refine ⟨?_, h.2.2.2 (fun _ => probaRow) rfl⟩
  rw [h.1]
  decide

/-- C8: in explicit latitude/longitude mode any in-range pair, including
`(0, 0)`, is taken as the coordinates, no warning is shown, and the
geocoding resolver is never invoked (the outcome is the same for every
geocoder). -/
theorem latlon_mode_accepts_pair (clf : Classifier) (sex : Sex)
    (red_pixel green_pixel blue_pixel hb : ℚ) (location_text : String)
    (geocode : String → GeoOutcome) (lat lon : ℚ)
    (hlat : -90 ≤ lat ∧ lat ≤ 90) (hlon : -180 ≤ lon ∧ lon ≤ 180) :
    (runApp clf sex red_pixel green_pixel blue_pixel hb LocationMode.latLon
      location_text geocode lat lon).loc = ⟨some lat, some lon, [], false⟩ ∧
    (∀ g', resolveLocation LocationMode.latLon location_text g' lat lon =
      resolveLocation LocationMode.latLon location_text geocode lat lon) :=
  ⟨rfl, fun _ => rfl⟩

/-- Witness for C8 at the pair `(0, 0)`. -/
theorem latlon_mode_accepts_pair_witness :
    (runApp clfOne Sex.M 45 30 25 10 LocationMode.latLon ""
      (fun _ => GeoOutcome.notFound) 0 0).loc = ⟨some 0, some 0, [], false⟩ := by
  exact (latlon_mode_accepts_pair clfOne Sex.M 45 30 25 10 ""
    (fun _ => GeoOutcome.notFound) 0 0
    ⟨by norm_num, by norm_num⟩ ⟨by norm_num, by norm_num⟩).1

/-- C9: two runs that differ only in the location inputs produce the same
prediction result (same classifier record, prediction, confidence, tips,
link and report text). -/
theorem location_noninterference (clf : Classifier) (sex : Sex)
    (red_pixel green_pixel blue_pixel hb : ℚ)
    (m₁ : LocationMode) (t₁ : String) (g₁ : String → GeoOutcome) (la₁ lo₁ : ℚ)
    (m₂ : LocationMode) (t₂ : String) (g₂ : String → GeoOutcome) (la₂ lo₂ : ℚ) :
    (runApp clf sex red_pixel green_pixel blue_pixel hb m₁ t₁ g₁ la₁ lo₁).result =
    (runApp clf sex red_pixel green_pixel blue_pixel hb m₂ t₂ g₂ la₂ lo₂).result := rfl

/-- C10: an empty free-text location skips the geocoder (same outcome for
every geocoder, `geocoderCalled` false), shows no warning, leaves the
coordinates null, and the prediction result is still produced. -/
theorem empty_location_skips_geocoder (clf : Classifier) (sex : Sex)
    (red_pixel green_pixel blue_pixel hb : ℚ)
    (geocode : String → GeoOutcome) (latInput lonInput : ℚ) :
    (runApp clf sex red_pixel green_pixel blue_pixel hb LocationMode.countryCity
      "" geocode latInput lonInput).loc = ⟨none, none, [], false⟩ ∧
    (∀ g', resolveLocation LocationMode.countryCity "" g' latInput lonInput =
      resolveLocation LocationMode.countryCity "" geocode latInput lonInput) ∧
    (runApp clf sex red_pixel green_pixel blue_pixel hb LocationMode.countryCity
      "" geocode latInput lonInput).result =
      runPrediction clf sex red_pixel green_pixel blue_pixel hb := by
  refine ⟨?_, fun g' => rfl, rfl⟩
  simp [runApp, resolveLocation]

theorem join_singleton (s : String) : String.join [s] = s := by
  rw [join_cons]
  exact String.append_empty s

theorem ends_with_join (l : List String) (x y : String) :
    ∃ a, String.join (l ++ [x ++ y ++ "\n"]) = a ++ (y ++ "\n") := by
  refine ⟨String.join l ++ x, ?_⟩
  rw [join_append_str, join_singleton]
  simp [String.append_assoc]

theorem pct_newline_split : ("%\n" : String) = "%" ++ "\n" := by decide

theorem containsLine_join_pct (l₁ l₂ : List String) (x : String)
    (h : ∀ s ∈ l₁, ∃ s0, s = s0 ++ "\n") :
    containsLine (String.join (l₁ ++ (x ++ "%\n") :: l₂)) (x ++ "%") := by
  have h2 := containsLine_join l₁ l₂ (x ++ "%") h
  rw [String.append_assoc, ← pct_newline_split] at h2
  exact h2

theorem all_nl_nil : ∀ s ∈ ([] : List String), ∃ s0, s = s0 ++ "\n" := by
  intro s hs
  cases hs

theorem all_nl_cons {x : String} {l : List String} (hx : ∃ s0, x = s0 ++ "\n")
    (hl : ∀ s ∈ l, ∃ s0, s = s0 ++ "\n") :
    ∀ s ∈ x :: l, ∃ s0, s = s0 ++ "\n" := by
  intro s hs
  rcases List.mem_cons.mp hs with rfl | hs'
  · exact hx
  · exact hl s hs'

theorem all_nl_append {l₁ l₂ : List String}
    (h₁ : ∀ s ∈ l₁, ∃ s0, s = s0 ++ "\n") (h₂ : ∀ s ∈ l₂, ∃ s0, s = s0 ++ "\n") :
    ∀ s ∈ l₁ ++ l₂, ∃ s0, s = s0 ++ "\n" := by
  intro s hs
  rcases List.mem_append.mp hs with hs' | hs'
  · exact h₁ s hs'
  · exact h₂ s hs'

theorem all_nl_map_tips (l : List String) :
    ∀ s ∈ l.map (fun tip => "- " ++ tip ++ "\n"), ∃ s0, s = s0 ++ "\n" := by
  intro s hs
  obtain ⟨t, _, rfl⟩ := List.mem_map.mp hs
  exact ⟨"- " ++ t, rfl⟩

set_option maxRecDepth 100000 in
/-- Line decomposition of the serialized report: every input field appears
as its own `key: value` line, the prediction label and optional confidence
have their own lines, every tip is a `- `-prefixed line, and the text ends
with the reference link line. -/
theorem buildReport_lines (sex : Sex) (red_pixel green_pixel blue_pixel hb : ℚ)
    (p : ℤ) (conf : Option ℚ) (tips : List String) (lm : String) :
    containsLine (buildReport sex red_pixel green_pixel blue_pixel hb p conf tips lm)
      ("Sex: " ++ sexStr sex) ∧
    containsLine (buildReport sex red_pixel green_pixel blue_pixel hb p conf tips lm)
      ("%Red Pixel: " ++ floatRepr red_pixel) ∧
    containsLine (buildReport sex red_pixel green_pixel blue_pixel hb p conf tips lm)
      ("%Green pixel: " ++ floatRepr green_pixel) ∧
    containsLine (buildReport sex red_pixel green_pixel blue_pixel hb p conf tips lm)
      ("%Blue pixel: " ++ floatRepr blue_pixel) ∧
    containsLine (buildReport sex red_pixel green_pixel blue_pixel hb p conf tips lm)
      ("Hemoglobin (Hb): " ++ floatRepr hb) ∧
    containsLine (buildReport sex red_pixel green_pixel blue_pixel hb p conf tips lm)
      ("Prediction: " ++ (if p = 1 then "Anaemic" else "Not Anaemic")) ∧
    (∀ c, conf = some c →
      containsLine (buildReport sex red_pixel green_pixel blue_pixel hb p conf tips lm)
        ("Confidence: " ++ fmt1f (c * 100) ++ "%")) ∧
    (∀ t ∈ tips,
      containsLine (buildReport sex red_pixel green_pixel blue_pixel hb p conf tips lm)
        ("- " ++ t)) ∧
    (∃ a, buildReport sex red_pixel green_pixel blue_pixel hb p conf tips lm =
      a ++ (lm ++ "\n")) := by
  have e1 : ∃ s0, ("Anaemia Prediction Report\n" : String) = s0 ++ "\n" :=
    ⟨"Anaemia Prediction Report", by decide⟩
  have e2 : ∃ s0, ("========================\n" : String) = s0 ++ "\n" :=
    ⟨"========================", by decide⟩
  have e9 : ∃ s0, ("\nHealth Tips:\n" : String) = s0 ++ "\n" :=
    ⟨"\nHealth Tips:", by decide⟩
  rcases conf with _ | c0
  · refine ⟨?_, ?_, ?_, ?_, ?_, ?_, ?_, ?_, ends_with_join _ "\n" lm⟩
    · simp only [buildReport, reportPieces, List.append_assoc, List.cons_append,
        List.nil_append]
      exact containsLine_join
        ["Anaemia Prediction Report\n", "========================\n"] _ _
        (all_nl_cons e1 (all_nl_cons e2 all_nl_nil))
    · simp only [buildReport, reportPieces, List.append_assoc, List.cons_append,
        List.nil_append]
      exact containsLine_join
        ["Anaemia Prediction Report\n", "========================\n",
         "Sex: " ++ sexStr sex ++ "\n"] _ _
        (all_nl_cons e1 (all_nl_cons e2 (all_nl_cons ⟨_, rfl⟩ all_nl_nil)))
    · simp only [buildReport, reportPieces, List.append_assoc, List.cons_append,
        List.nil_append]
      exact containsLine_join
        ["Anaemia Prediction Report\n", "========================\n",
         "Sex: " ++ sexStr sex ++ "\n", "%Red Pixel: " ++ floatRepr red_pixel ++ "\n"] _ _
        (all_nl_cons e1 (all_nl_cons e2 (all_nl_cons ⟨_, rfl⟩
          (all_nl_cons ⟨_, rfl⟩ all_nl_nil))))
    · simp only [buildReport, reportPieces, List.append_assoc, List.cons_append,
        List.nil_append]
      exact containsLine_join
        ["Anaemia Prediction Report\n", "========================\n",
         "Sex: " ++ sexStr sex ++ "\n", "%Red Pixel: " ++ floatRepr red_pixel ++ "\n",
         "%Green pixel: " ++ floatRepr green_pixel ++ "\n"] _ _
        (all_nl_cons e1 (all_nl_cons e2 (all_nl_cons ⟨_, rfl⟩ (all_nl_cons ⟨_, rfl⟩
          (all_nl_cons ⟨_, rfl⟩ all_nl_nil)))))
    · simp only [buildReport, reportPieces, List.append_assoc, List.cons_append,
        List.nil_append]
      exact containsLine_join
        ["Anaemia Prediction Report\n", "========================\n",
         "Sex: " ++ sexStr sex ++ "\n", "%Red Pixel: " ++ floatRepr red_pixel ++ "\n",
         "%Green pixel: " ++ floatRepr green_pixel ++ "\n",
         "%Blue pixel: " ++ floatRepr blue_pixel ++ "\n"] _ _
        (all_nl_cons e1 (all_nl_cons e2 (all_nl_cons ⟨_, rfl⟩ (all_nl_cons ⟨_, rfl⟩
          (all_nl_cons ⟨_, rfl⟩ (all_nl_cons ⟨_, rfl⟩ all_nl_nil))))))
    · simp only [buildReport, reportPieces, List.append_assoc, List.cons_append,
        List.nil_append]
      exact containsLine_join
        ["Anaemia Prediction Report\n", "========================\n",
         "Sex: " ++ sexStr sex ++ "\n", "%Red Pixel: " ++ floatRepr red_pixel ++ "\n",
         "%Green pixel: " ++ floatRepr green_pixel ++ "\n",
         "%Blue pixel: " ++ floatRepr blue_pixel ++ "\n",
         "Hemoglobin (Hb): " ++ floatRepr hb ++ "\n"] _ _
        (all_nl_cons e1 (all_nl_cons e2 (all_nl_cons ⟨_, rfl⟩ (all_nl_cons ⟨_, rfl⟩
          (all_nl_cons ⟨_, rfl⟩ (all_nl_cons ⟨_, rfl⟩ (all_nl_cons ⟨_, rfl⟩
            all_nl_nil)))))))
    · intro c hc
      exact Option.noConfusion hc
    · intro t ht
      obtain ⟨t₁, t₂, rfl⟩ := List.append_of_mem ht
      simp only [buildReport, reportPieces, List.append_assoc, List.cons_append,
        List.nil_append, List.map_append, List.map_cons]
      exact containsLine_join
        (["Anaemia Prediction Report\n", "========================\n",
          "Sex: " ++ sexStr sex ++ "\n", "%Red Pixel: " ++ floatRepr red_pixel ++ "\n",
          "%Green pixel: " ++ floatRepr green_pixel ++ "\n",
          "%Blue pixel: " ++ floatRepr blue_pixel ++ "\n",
          "Hemoglobin (Hb): " ++ floatRepr hb ++ "\n",
          "Prediction: " ++ (if p = 1 then "Anaemic" else "Not Anaemic") ++ "\n",
          "\nHealth Tips:\n"] ++ t₁.map (fun tip => "- " ++ tip ++ "\n")) _ _
        (all_nl_append
          (all_nl_cons e1 (all_nl_cons e2 (all_nl_cons ⟨_, rfl⟩ (all_nl_cons ⟨_, rfl⟩
            (all_nl_cons ⟨_, rfl⟩ (all_nl_cons ⟨_, rfl⟩ (all_nl_cons ⟨_, rfl⟩
              (all_nl_cons ⟨_, rfl⟩ (all_nl_cons e9 all_nl_nil)))))))))
          (all_nl_map_tips t₁))
  · have epc : ∃ s0, ("Confidence: " ++ fmt1f (c0 * 100) ++ "%\n" : String) = s0 ++ "\n" :=
      ⟨"Confidence: " ++ fmt1f (c0 * 100) ++ "%",
        by simp [String.append_assoc, pct_newline_split]⟩
    refine ⟨?_, ?_, ?_, ?_, ?_, ?_, ?_, ?_, ends_with_join _ "\n" lm⟩
    · simp only [buildReport, reportPieces, List.append_assoc, List.cons_append,
        List.nil_append]
      exact containsLine_join
        ["Anaemia Prediction Report\n", "========================\n"] _ _
        (all_nl_cons e1 (all_nl_cons e2 all_nl_nil))
    · simp only [buildReport, reportPieces, List.append_assoc, List.cons_append,
        List.nil_append]
      exact containsLine_join
        ["Anaemia Prediction Report\n", "========================\n",
         "Sex: " ++ sexStr sex ++ "\n"] _ _
        (all_nl_cons e1 (all_nl_cons e2 (all_nl_cons ⟨_, rfl⟩ all_nl_nil)))
    · simp only [buildReport, reportPieces, List.append_assoc, List.cons_append,
        List.nil_append]
      exact containsLine_join
        ["Anaemia Prediction Report\n", "========================\n",
         "Sex: " ++ sexStr sex ++ "\n", "%Red Pixel: " ++ floatRepr red_pixel ++ "\n"] _ _
        (all_nl_cons e1 (all_nl_cons e2 (all_nl_cons ⟨_, rfl⟩
          (all_nl_cons ⟨_, rfl⟩ all_nl_nil))))
    · simp only [buildReport, reportPieces, List.append_assoc, List.cons_append,
        List.nil_append]
      exact containsLine_join
        ["Anaemia Prediction Report\n", "========================\n",
         "Sex: " ++ sexStr sex ++ "\n", "%Red Pixel: " ++ floatRepr red_pixel ++ "\n",
         "%Green pixel: " ++ floatRepr green_pixel ++ "\n"] _ _
        (all_nl_cons e1 (all_nl_cons e2 (all_nl_cons ⟨_, rfl⟩ (all_nl_cons ⟨_, rfl⟩
          (all_nl_cons ⟨_, rfl⟩ all_nl_nil)))))
    · simp only [buildReport, reportPieces, List.append_assoc, List.cons_append,
        List.nil_append]
      exact containsLine_join
        ["Anaemia Prediction Report\n", "========================\n",
         "Sex: " ++ sexStr sex ++ "\n", "%Red Pixel: " ++ floatRepr red_pixel ++ "\n",
         "%Green pixel: " ++ floatRepr green_pixel ++ "\n",
         "%Blue pixel: " ++ floatRepr blue_pixel ++ "\n"] _ _
        (all_nl_cons e1 (all_nl_cons e2 (all_nl_cons ⟨_, rfl⟩ (all_nl_cons ⟨_, rfl⟩
          (all_nl_cons ⟨_, rfl⟩ (all_nl_cons ⟨_, rfl⟩ all_nl_nil))))))
    · simp only [buildReport, reportPieces, List.append_assoc, List.cons_append,
        List.nil_append]
      exact containsLine_join
        ["Anaemia Prediction Report\n", "========================\n",
         "Sex: " ++ sexStr sex ++ "\n", "%Red Pixel: " ++ floatRepr red_pixel ++ "\n",
         "%Green pixel: " ++ floatRepr green_pixel ++ "\n",
         "%Blue pixel: " ++ floatRepr blue_pixel ++ "\n",
         "Hemoglobin (Hb): " ++ floatRepr hb ++ "\n"] _ _
        (all_nl_cons e1 (all_nl_cons e2 (all_nl_cons ⟨_, rfl⟩ (all_nl_cons ⟨_, rfl⟩
          (all_nl_cons ⟨_, rfl⟩ (all_nl_cons ⟨_, rfl⟩ (all_nl_cons ⟨_, rfl⟩
            all_nl_nil)))))))
    · intro c hc
      obtain rfl : c0 = c := Option.some.inj hc
      simp only [buildReport, reportPieces, List.append_assoc, List.cons_append,
        List.nil_append]
      exact containsLine_join_pct
        ["Anaemia Prediction Report\n", "========================\n",
         "Sex: " ++ sexStr sex ++ "\n", "%Red Pixel: " ++ floatRepr red_pixel ++ "\n",
         "%Green pixel: " ++ floatRepr green_pixel ++ "\n",
         "%Blue pixel: " ++ floatRepr blue_pixel ++ "\n",
         "Hemoglobin (Hb): " ++ floatRepr hb ++ "\n",
         "Prediction: " ++ (if p = 1 then "Anaemic" else "Not Anaemic") ++ "\n"] _ _
        (all_nl_cons e1 (all_nl_cons e2 (all_nl_cons ⟨_, rfl⟩ (all_nl_cons ⟨_, rfl⟩
          (all_nl_cons ⟨_, rfl⟩ (all_nl_cons ⟨_, rfl⟩ (all_nl_cons ⟨_, rfl⟩
            (all_nl_cons ⟨_, rfl⟩ all_nl_nil))))))))
    · intro t ht
      obtain ⟨t₁, t₂, rfl⟩ := List.append_of_mem ht
      simp only [buildReport, reportPieces, List.append_assoc, List.cons_append,
        List.nil_append, List.map_append, List.map_cons]
      exact containsLine_join
        (["Anaemia Prediction Report\n", "========================\n",
          "Sex: " ++ sexStr sex ++ "\n", "%Red Pixel: " ++ floatRepr red_pixel ++ "\n",
          "%Green pixel: " ++ floatRepr green_pixel ++ "\n",
          "%Blue pixel: " ++ floatRepr blue_pixel ++ "\n",
          "Hemoglobin (Hb): " ++ floatRepr hb ++ "\n",
          "Prediction: " ++ (if p = 1 then "Anaemic" else "Not Anaemic") ++ "\n",
          "Confidence: " ++ fmt1f (c0 * 100) ++ "%\n",
          "\nHealth Tips:\n"] ++ t₁.map (fun tip => "- " ++ tip ++ "\n")) _ _
        (all_nl_append
          (all_nl_cons e1 (all_nl_cons e2 (all_nl_cons ⟨_, rfl⟩ (all_nl_cons ⟨_, rfl⟩
            (all_nl_cons ⟨_, rfl⟩ (all_nl_cons ⟨_, rfl⟩ (all_nl_cons ⟨_, rfl⟩
              (all_nl_cons ⟨_, rfl⟩ (all_nl_cons epc (all_nl_cons e9 all_nl_nil))))))))))
          (all_nl_map_tips t₁))

set_option maxRecDepth 100000 in
theorem fmt1f_82 : fmt1f (82 : ℚ) = "82.0" := by
  have h : (82 : ℚ) * 10 = 820 := by norm_num
  simp only [fmt1f]
  rw [h]
  decide

set_option maxRecDepth 1000000 in
set_option maxHeartbeats 4000000 in
/-- C4: the serialized report echoes every input field as its own
`key: value` line, has lines for the label and (when present) the
confidence formatted to one decimal place as a percentage, lists each tip
as a `- `-prefixed line, and ends with the reference link; at the concrete
input of the spec (hb = 10.0, confidence = 0.82) the report text is
exactly as expected, containing the lines `Hemoglobin (Hb): 10.0` and
`Confidence: 82.0%`, while without `predict_proba` no `Confidence` text
occurs at all. -/
theorem report_serialization (clf : Classifier) (sex : Sex)
    (red_pixel green_pixel blue_pixel hb : ℚ) :
    containsLine (runPrediction clf sex red_pixel green_pixel blue_pixel hb).report
      ("Sex: " ++ sexStr sex) ∧
    containsLine (runPrediction clf sex red_pixel green_pixel blue_pixel hb).report
      ("%Red Pixel: " ++ floatRepr red_pixel) ∧
    containsLine (runPrediction clf sex red_pixel green_pixel blue_pixel hb).report
      ("%Green pixel: " ++ floatRepr green_pixel) ∧
    containsLine (runPrediction clf sex red_pixel green_pixel blue_pixel hb).report
      ("%Blue pixel: " ++ floatRepr blue_pixel) ∧
    containsLine (runPrediction clf sex red_pixel green_pixel blue_pixel hb).report
      ("Hemoglobin (Hb): " ++ floatRepr hb) ∧
    containsLine (runPrediction clf sex red_pixel green_pixel blue_pixel hb).report
      ("Prediction: " ++
        (if (runPrediction clf sex red_pixel green_pixel blue_pixel hb).prediction = 1
         then "Anaemic" else "Not Anaemic")) ∧
    (∀ c, (runPrediction clf sex red_pixel green_pixel blue_pixel hb).confidence = some c →
      containsLine (runPrediction clf sex red_pixel green_pixel blue_pixel hb).report
        ("Confidence: " ++ fmt1f (c * 100) ++ "%")) ∧
    (∀ t ∈ (runPrediction clf sex red_pixel green_pixel blue_pixel hb).tips,
      containsLine (runPrediction clf sex red_pixel green_pixel blue_pixel hb).report
        ("- " ++ t)) ∧
    (∃ a, (runPrediction clf sex red_pixel green_pixel blue_pixel hb).report =
      a ++ ((runPrediction clf sex red_pixel green_pixel blue_pixel hb).learn_more ++ "\n")) ∧
    (runPrediction clfProba Sex.F 45 30 25 10).report =
      "Anaemia Prediction Report\n========================\nSex: F\n%Red Pixel: 45.0\n%Green pixel: 30.0\n%Blue pixel: 25.0\nHemoglobin (Hb): 10.0\nPrediction: Anaemic\nConfidence: 82.0%\n\nHealth Tips:\n- Increase iron-rich foods (spinach, beans, red meat).\n- Consult your doctor for supplements if needed.\n- Get regular checkups.\n\n[Learn more about anaemia (WHO)](https://www.who.int/news-room/fact-sheets/detail/anaemia)\n" ∧
    containsLine (runPrediction clfProba Sex.F 45 30 25 10).report
      "Hemoglobin (Hb): 10.0" ∧
    containsLine (runPrediction clfProba Sex.F 45 30 25 10).report
      "Confidence: 82.0%" ∧
    containsSub "Confidence".toList
      (runPrediction clfZero Sex.F 45 30 25 10).report.toList = false := by
  have H := buildReport_lines sex red_pixel green_pixel blue_pixel hb
    (clf.predict ⟨if sex = Sex.M then 0 else 1, red_pixel, green_pixel, blue_pixel, hb⟩)
    (match clf.predictProba with
      | some f =>
          some (npMax (f ⟨if sex = Sex.M then 0 else 1, red_pixel, green_pixel,
            blue_pixel, hb⟩))
      | none => none)
    (computeTips hb green_pixel
      (clf.predict ⟨if sex = Sex.M then 0 else 1, red_pixel, green_pixel, blue_pixel, hb⟩)).1
    (computeTips hb green_pixel
      (clf.predict ⟨if sex = Sex.M then 0 else 1, red_pixel, green_pixel, blue_pixel, hb⟩)).2
  have hrep : (runPrediction clfProba Sex.F 45 30 25 10).report =
      "Anaemia Prediction Report\n========================\nSex: F\n%Red Pixel: 45.0\n%Green pixel: 30.0\n%Blue pixel: 25.0\nHemoglobin (Hb): 10.0\nPrediction: Anaemic\nConfidence: 82.0%\n\nHealth Tips:\n- Increase iron-rich foods (spinach, beans, red meat).\n- Consult your doctor for supplements if needed.\n- Get regular checkups.\n\n[Learn more about anaemia (WHO)](https://www.who.int/news-room/fact-sheets/detail/anaemia)\n" := by
    simp only [runPrediction, clfProba]
    rw [npMax_probaRow, computeTips_eq]
    norm_num [buildReport, reportPieces, fmt1f_82, List.map]
    all_goals decide
  refine ⟨H.1, H.2.1, H.2.2.1, H.2.2.2.1, H.2.2.2.2.1, H.2.2.2.2.2.1,
    H.2.2.2.2.2.2.1, H.2.2.2.2.2.2.2.1, H.2.2.2.2.2.2.2.2, hrep, ?_, ?_, by decide⟩
  · rw [hrep]
    exact ⟨"Anaemia Prediction Report\n========================\nSex: F\n%Red Pixel: 45.0\n%Green pixel: 30.0\n%Blue pixel: 25.0\n",
      "Prediction: Anaemic\nConfidence: 82.0%\n\nHealth Tips:\n- Increase iron-rich foods (spinach, beans, red meat).\n- Consult your doctor for supplements if needed.\n- Get regular checkups.\n\n[Learn more about anaemia (WHO)](https://www.who.int/news-room/fact-sheets/detail/anaemia)\n",
      by decide,
      Or.inr ⟨"Anaemia Prediction Report\n========================\nSex: F\n%Red Pixel: 45.0\n%Green pixel: 30.0\n%Blue pixel: 25.0", by decide⟩⟩
  · rw [hrep]
    exact ⟨"Anaemia Prediction Report\n========================\nSex: F\n%Red Pixel: 45.0\n%Green pixel: 30.0\n%Blue pixel: 25.0\nHemoglobin (Hb): 10.0\nPrediction: Anaemic\n",
      "\nHealth Tips:\n- Increase iron-rich foods (spinach, beans, red meat).\n- Consult your doctor for supplements if needed.\n- Get regular checkups.\n\n[Learn more about anaemia (WHO)](https://www.who.int/news-room/fact-sheets/detail/anaemia)\n",
      by decide,
      Or.inr ⟨"Anaemia Prediction Report\n========================\nSex: F\n%Red Pixel: 45.0\n%Green pixel: 30.0\n%Blue pixel: 25.0\nHemoglobin (Hb): 10.0\nPrediction: Anaemic", by decide⟩⟩

set_option maxRecDepth 100000 in
/-- Witness for C4: at the concrete run with probability row
`[0.18, 0.82]`, the report contains the confidence line and the iron tip
line obtained from the general statement. -/
theorem report_serialization_witness :
    containsLine (runPrediction clfProba Sex.F 45 30 25 10).report
      ("Confidence: " ++ fmt1f (npMax probaRow * 100) ++ "%") ∧
    containsLine (runPrediction clfProba Sex.F 45 30 25 10).report ("- " ++ ironTip) := by
  have h := report_serialization clfProba Sex.F 45 30 25 10
  constructor
  · exact h.2.2.2.2.2.2.1 (npMax probaRow) rfl
  · refine h.2.2.2.2.2.2.2.1 ironTip ?_
    decide

end AnaemiaApp
